import Mathlib

/-!
Shallow embedding of
`src/marl/environments/particles/multiagent/scenarios/custom/speaker_listener_shared.py`
(the `Scenario` class of the shared speaker–listener task) and proofs about it.

Modelling conventions:
* numpy float arrays are modelled as `List ℚ`; the elementwise operations used
  by the source (`+`, `-`, `np.square`, `np.sum`, `np.zeros`, `np.concatenate`)
  are modelled componentwise on lists of equal length.
* Python object references (`goal_a` is a reference to an `Agent` held in
  `world.agents`, `goal_b` a reference to a `Landmark` held in
  `world.landmarks`) are modelled as indices into those lists, so that the
  in-place mutation `world.agents[0].goal_a.color = ...` is visible as an
  update of the referenced list element.
* `Scenario.reset_world` draws randomness from `np.random.choice` (the goal
  landmark) and `np.random.uniform(-1, +1, dim)` (initial positions); the
  embedding takes these draws as explicit parameters.
* fallible operations (`reward`, `observation`, `benchmark_data`) return
  `Except PyError _`, with `PyError` covering the Python exceptions the source
  can raise.
-/

namespace SpeakerListenerShared

/-- Python exceptions that the embedded methods can raise. -/
inductive PyError where
  /-- `NameError`: an unbound bare name was evaluated. -/
  | nameError (name : String) : PyError
  /-- `AttributeError`, e.g. reading `.state` on `None`. -/
  | attributeError (msg : String) : PyError
  /-- `IndexError` from indexing a list out of range. -/
  | indexError : PyError
  /-- a `raise Exception(msg)` statement. -/
  | exception (msg : String) : PyError
  deriving DecidableEq, Repr

/-- Componentwise vector difference (numpy elementwise `-` on equal-length arrays). -/
def vsub (u v : List ℚ) : List ℚ := List.zipWith (fun a b => a - b) u v

/-- Componentwise vector sum (numpy elementwise `+` on equal-length arrays). -/
def vadd (u v : List ℚ) : List ℚ := List.zipWith (fun a b => a + b) u v

/-- `np.sum(np.square(v))`: the sum of the squares of the entries. -/
def sumSq (v : List ℚ) : ℚ := (v.map (fun x => x * x)).sum

/-- `np.zeros(n)`. -/
def zeros (n : Nat) : List ℚ := List.replicate n 0

/-- `np.ones(n)`. -/
def ones (n : Nat) : List ℚ := List.replicate n 1

/-- The physical state of an entity: `state.p_pos`, `state.p_vel`, and for
agents also the communication vector `state.c` (empty for landmarks). -/
structure EntityState where
  p_pos : List ℚ
  p_vel : List ℚ
  c : List ℚ
  deriving DecidableEq, Repr

/-- An `Agent` entity.  `goal_a` is a reference to an agent of the world
(modelled as an index into `world.agents`), `goal_b` a reference to a landmark
(an index into `world.landmarks`); `none` models Python `None`. -/
structure Agent where
  name : String
  collide : Bool
  silent : Bool
  movable : Bool
  size : ℚ
  color : List ℚ
  state : EntityState
  goal_a : Option Nat
  goal_b : Option Nat
  deriving DecidableEq, Repr

/-- A `Landmark` entity. -/
structure Landmark where
  name : String
  collide : Bool
  movable : Bool
  size : ℚ
  color : List ℚ
  state : EntityState
  deriving DecidableEq, Repr

/-- The `World` container. -/
structure World where
  dim_c : Nat
  dim_p : Nat
  dim_color : Nat
  collaborative : Bool
  agents : List Agent
  landmarks : List Landmark
  deriving DecidableEq, Repr

/-- Modelled from the spec: the `Agent()` constructor of the engine core
(`multiagent/core.py`, not under `src/`).  Per the spec's data model an agent
has identity, physical flags, a color, a physical state and unset goal fields;
`make_world`/`reset_world` overwrite every field any claim reads, so only
`goal_a = goal_b = None` and an empty initial state matter here. -/
def Agent.init : Agent :=
  { name := ""
    collide := true
    silent := false
    movable := true
    size := 0.05
    color := []
    state := { p_pos := [], p_vel := [], c := [] }
    goal_a := none
    goal_b := none }

/-- Modelled from the spec: the `Landmark()` constructor of the engine core
(not under `src/`).  `make_world`/`reset_world` overwrite every field any
claim reads. -/
def Landmark.init : Landmark :=
  { name := ""
    collide := true
    movable := false
    size := 0.05
    color := []
    state := { p_pos := [], p_vel := [], c := [] } }

/-- Modelled from the spec: the `World()` constructor defaults of the engine
core (not under `src/`).  The spec fixes `dim_p = 2` (two velocity
components in the observation) and `dim_color = 3` (3-component color
block); `make_world` itself sets `dim_c` and `collaborative`. -/
def World.init : World :=
  { dim_c := 0
    dim_p := 2
    dim_color := 3
    collaborative := false
    agents := []
    landmarks := [] }

/-- Update the agent stored at index `i` of the world (no-op when `i` is out
of range, which is unreachable from the scenario's own calls). -/
def updAgent (w : World) (i : Nat) (f : Agent → Agent) : World :=
  { w with agents := w.agents.set i (f (w.agents.getD i Agent.init)) }

/-- Update the landmark stored at index `i` of the world (no-op when `i` is
out of range, which is unreachable from the scenario's own calls). -/
def updLandmark (w : World) (i : Nat) (f : Landmark → Landmark) : World :=
  { w with landmarks := w.landmarks.set i (f (w.landmarks.getD i Landmark.init)) }

/-- The fixed primary colors assigned to landmarks 0, 1, 2 in
`reset_world` (source lines 80–82). -/
def primary : Nat → List ℚ
  | 0 => [0.65, 0.15, 0.15]
  | 1 => [0.15, 0.65, 0.15]
  | _ => [0.15, 0.15, 0.65]

/-- Embedding of `Scenario.reset_world` (source lines 66–92).

`k` is the index drawn by `np.random.choice(world.landmarks)`; `apos i j`
(resp. `lpos i j`) is the `j`-th coordinate drawn by
`np.random.uniform(-1, +1, world.dim_p)` for agent `i` (resp. landmark `i`).

The call `super().reset_world(world)` (in `ConfigurableScenario`, whose code
is not under `src/`) is modelled from the spec as generic physics-state
randomization whose effects are invisible here: every field the claims read
(goal references, colors, positions, velocities, communication vectors) is
reassigned by the statements below, so it is embedded as the identity.

Statements follow the source order:
1. clear `goal_a`/`goal_b` on every agent;
2. `agents[0].goal_a = agents[1]`, `agents[0].goal_b = landmarks[k]`;
3. both agents get the neutral gray color `[0.25, 0.25, 0.25]`;
4. the three landmarks get their fixed primary colors;
5. `agents[0].goal_a.color = agents[0].goal_b.color + [0.45, 0.45, 0.45]` —
   a write through the `goal_a` reference, i.e. to the referenced agent;
6. random positions, zero velocities and comm vectors for all entities. -/
def reset_world (k : Nat) (apos lpos : Nat → Nat → ℚ) (w : World) : World :=
  let w := { w with agents := w.agents.map fun a => { a with goal_a := none, goal_b := none } }
  let w := updAgent w 0 fun a => { a with goal_a := some 1, goal_b := some k }
  let w := { w with agents := w.agents.map fun a => { a with color := [0.25, 0.25, 0.25] } }
  let w := updLandmark w 0 fun l => { l with color := [0.65, 0.15, 0.15] }
  let w := updLandmark w 1 fun l => { l with color := [0.15, 0.65, 0.15] }
  let w := updLandmark w 2 fun l => { l with color := [0.15, 0.15, 0.65] }
  let a0 := w.agents.getD 0 Agent.init
  let w :=
    match a0.goal_a, a0.goal_b with
    | some i, some j =>
        updAgent w i fun a =>
          { a with color := vadd ((w.landmarks.getD j Landmark.init).color) [0.45, 0.45, 0.45] }
    | _, _ => w
  let w := { w with
    agents := w.agents.mapIdx fun i (a : Agent) =>
      { a with state := { p_pos := (List.range w.dim_p).map (apos i)
                          p_vel := zeros w.dim_p
                          c := zeros w.dim_c } } }
  { w with
    landmarks := w.landmarks.mapIdx fun i (l : Landmark) =>
      { l with state := { p_pos := (List.range w.dim_p).map (lpos i)
                          p_vel := zeros w.dim_p
                          c := l.state.c } } }

/-- Embedding of `Scenario.make_world` (source lines 38–64).  Constructs the
world (2 agents, 3 landmarks, `dim_c = 3`, `collaborative = true`, the fixed
physical parameters) and then calls `reset_world`; the randomness parameters
are those of that `reset_world` call. -/
def make_world (k : Nat) (apos lpos : Nat → Nat → ℚ) : World :=
  let world := { World.init with dim_c := 3, collaborative := true }
  let world := { world with
    agents := (List.range 2).map fun i =>
      { Agent.init with name := "agent " ++ toString i, collide := false, size := 0.075 } }
  let world := updAgent world 0 fun a => { a with movable := true, silent := true }
  let world := updAgent world 1 fun a => { a with silent := true }
  let world := { world with
    landmarks := (List.range 3).map fun i =>
      { Landmark.init with name := "landmark " ++ toString i, collide := false,
                           movable := false, size := 0.04 } }
  reset_world k apos lpos world

/-- Embedding of `Scenario.benchmark_data` (source lines 94–96).  The body is
`return self.reward(agent, reward)`: the bare name `reward` is unbound in the
method's local and module scope (the reward function is only reachable as the
attribute `self.reward`), so Python raises `NameError` while evaluating the
second argument, before any call happens. -/
def benchmark_data (agent : Nat) (world : World) : Except PyError ℚ :=
  Except.error (PyError.nameError "reward")

/-- Embedding of `Scenario.reward` (source lines 98–102).
`a = world.agents[0]`, then the negated squared distance between
`a.goal_a.state.p_pos` and `a.goal_b.state.p_pos`.  The `agent` parameter is a
reference to an agent (modelled as an index); the body never uses it.
Unset goal references raise `AttributeError` (`None.state`); the dangling
index cases cannot arise in Python, where a reference always has its object. -/
def reward (agent : Nat) (world : World) : Except PyError ℚ :=
  match world.agents[0]? with
  | none => Except.error PyError.indexError
  | some a =>
    match a.goal_a, a.goal_b with
    | some i, some j =>
      match world.agents[i]?, world.landmarks[j]? with
      | some ga, some gb =>
          Except.ok (-(sumSq (vsub ga.state.p_pos gb.state.p_pos)))
      | _, _ => Except.error PyError.indexError
    | _, _ => Except.error (PyError.attributeError "NoneType has no attribute state")

/-- Embedding of `Scenario.observation` (source lines 104–132).  The caller
passes `world.agents[i]`; the identity comparisons
`agent == world.agents[0]` / `agent == world.agents[1]` become `i = 0` /
`i = 1` (the world's agents are distinct objects).  The discarded call
`super().observation(agent, world)` (code not under `src/`) has no effect on
the returned vector.  `goal_color` is `np.zeros(world.dim_color)` unless the
passed agent's own `goal_b` is set, in which case it is that landmark's
color; `entity_pos` lists each landmark's position relative to the passed
agent; a passed agent that is neither `agents[0]` nor `agents[1]` reaches
`raise Exception('Unexpected agent')`. -/
def observation (i : Nat) (world : World) : Except PyError (List ℚ) :=
  match world.agents[i]? with
  | none => Except.error PyError.indexError
  | some agent =>
    let goal_color : List ℚ :=
      match agent.goal_b with
      | none => zeros world.dim_color
      | some j => (world.landmarks[j]?.map Landmark.color).getD (zeros world.dim_color)
    let entity_pos : List (List ℚ) :=
      world.landmarks.map fun entity => vsub entity.state.p_pos agent.state.p_pos
    if i = 0 then
      Except.ok (agent.state.p_vel ++ entity_pos.flatten ++ goal_color ++ ones 1)
    else if i = 1 then
      Except.ok (agent.state.p_vel ++ entity_pos.flatten ++ zeros 3 ++ zeros 1)
    else
      Except.error (PyError.exception "Unexpected agent")

/-- The world `make_world` constructs (source lines 38–61) before its final
`reset_world` call: `dim_c = 3`, `collaborative = true`, two non-colliding
agents of size 0.075 (agent 0 explicitly movable, both silent) and three
non-movable, non-colliding landmarks of size 0.04. -/
def preResetWorld : World :=
  ⟨3, 2, 3, true,
   [{ Agent.init with name := "agent 0", collide := false, size := 0.075,
                      movable := true, silent := true },
    { Agent.init with name := "agent 1", collide := false, size := 0.075, silent := true }],
   [{ Landmark.init with name := "landmark 0", collide := false, movable := false, size := 0.04 },
    { Landmark.init with name := "landmark 1", collide := false, movable := false, size := 0.04 },
    { Landmark.init with name := "landmark 2", collide := false, movable := false, size := 0.04 }]⟩

/-- Zero random draws, used to instantiate the theorems at concrete inputs. -/
def zdraw : Nat → Nat → ℚ := fun _ _ => 0

/-- A concrete world: the speaker's goals point at agent 1 and landmark 0,
the listener sits at the origin with zero velocity, and the only landmark
(red, at position (3, 4)) is the goal.  Used to instantiate theorems. -/
def exampleWorld : World :=
  ⟨3, 2, 3, true,
   [{ Agent.init with name := "agent 0", goal_a := some 1, goal_b := some 0,
                      state := ⟨[1, 1], [0, 0], [0, 0, 0]⟩ },
    { Agent.init with name := "agent 1",
                      state := ⟨[0, 0], [0, 0], [0, 0, 0]⟩ }],
   [{ Landmark.init with name := "landmark 0", color := [0.65, 0.15, 0.15],
                         state := ⟨[3, 4], [0, 0], []⟩ }]⟩

/-- A concrete world with two landmarks; `worldB` below agrees with it on the
listener's state and on all landmark positions but differs in the speaker's
`goal_b` choice and in every color. -/
def worldA : World :=
  ⟨3, 2, 3, true,
   [{ Agent.init with name := "agent 0", goal_a := some 1, goal_b := some 0,
                      color := [0.25, 0.25, 0.25] },
    { Agent.init with name := "agent 1", state := ⟨[0, 0], [0, 0], [0, 0, 0]⟩ }],
   [{ Landmark.init with name := "landmark 0", color := [0.65, 0.15, 0.15],
                         state := ⟨[3, 4], [0, 0], []⟩ },
    { Landmark.init with name := "landmark 1", color := [0.15, 0.65, 0.15],
                         state := ⟨[-1, 2], [0, 0], []⟩ }]⟩

/-- Same listener state and landmark positions as `worldA`, but a different
goal landmark and different agent and landmark colors. -/
def worldB : World :=
  ⟨3, 2, 3, true,
   [{ Agent.init with name := "agent 0", goal_a := some 1, goal_b := some 1,
                      color := [0.7, 0.7, 0.7] },
    { Agent.init with name := "agent 1", state := ⟨[0, 0], [0, 0], [0, 0, 0]⟩ }],
   [{ Landmark.init with name := "landmark 0", color := [1.1, 0.6, 0.6],
                         state := ⟨[3, 4], [0, 0], []⟩ },
    { Landmark.init with name := "landmark 1", color := [0.15, 0.15, 0.65],
                         state := ⟨[-1, 2], [0, 0], []⟩ }]⟩

/-- Full evaluation of `reset_world` on a world of this scenario's shape
(2 agents, 3 landmarks): agent 0 gets `goal_a = agent 1`, `goal_b =
landmark k` and stays neutral gray; agent 1 — the referent of `goal_a` —
gets the brightened color of landmark `k`; the landmarks get their fixed
primary colors; every entity gets the drawn position, zero velocity, and
(for agents) a zero communication vector. -/
theorem reset_world_eval (k : Nat) (hk : k < 3) (ap lp : Nat → Nat → ℚ)
    (dc dp dcol : Nat) (co : Bool) (a0 a1 : Agent) (l0 l1 l2 : Landmark) :
    reset_world k ap lp ⟨dc, dp, dcol, co, [a0, a1], [l0, l1, l2]⟩ =
      ⟨dc, dp, dcol, co,
        [{ a0 with goal_a := some 1, goal_b := some k, color := [0.25, 0.25, 0.25],
                   state := ⟨(List.range dp).map (ap 0), zeros dp, zeros dc⟩ },
         { a1 with goal_a := none, goal_b := none,
                   color := vadd (primary k) [0.45, 0.45, 0.45],
                   state := ⟨(List.range dp).map (ap 1), zeros dp, zeros dc⟩ }],
        [{ l0 with color := primary 0,
                   state := ⟨(List.range dp).map (lp 0), zeros dp, l0.state.c⟩ },
         { l1 with color := primary 1,
                   state := ⟨(List.range dp).map (lp 1), zeros dp, l1.state.c⟩ },
         { l2 with color := primary 2,
                   state := ⟨(List.range dp).map (lp 2), zeros dp, l2.state.c⟩ }]⟩ := by
  interval_cases k <;> rfl

/-- `make_world` builds `preResetWorld` and then calls `reset_world` on it. -/
theorem make_world_eq (k : Nat) (ap lp : Nat → Nat → ℚ) :
    make_world k ap lp = reset_world k ap lp preResetWorld := rfl

/-- C1, counterexample: in the world `make_world` produces with goal landmark 0
and zero draws, agent 0's `goal_b` is landmark 0, yet that landmark's color
after reset is the unbrightened primary `[0.65, 0.15, 0.15]`, not the claimed
base-plus-`(0.45, 0.45, 0.45)` variant. -/
theorem C1_counterexample :
    ((make_world 0 zdraw zdraw).agents.getD 0 Agent.init).goal_b = some 0 ∧
    ((make_world 0 zdraw zdraw).landmarks.getD 0 Landmark.init).color ≠
      vadd (primary 0) [0.45, 0.45, 0.45] := by
  rw [make_world_eq]
  unfold preResetWorld
  rw [reset_world_eval 0 (by norm_num)]
  refine ⟨rfl, ?_⟩
  simp only [primary, vadd, List.zipWith, List.getD]
  norm_num

/-- C1 (amended): immediately after `reset_world` the goal landmark — the
landmark referenced by agent 0's `goal_b` — has exactly its fixed base
primary color, with no brightening applied, and the other two landmarks
likewise keep their fixed primary colors: all three landmark colors equal
`primary j`.  (The `+ (0.45, 0.45, 0.45)` brightened variant is written to
the agent referenced by `goal_a`, not to the goal landmark.) -/
theorem C1_theorem (k : Nat) (ap lp : Nat → Nat → ℚ) (w : World)
    (hk : k < 3) (ha : w.agents.length = 2) (hl : w.landmarks.length = 3) :
    ((reset_world k ap lp w).agents.getD 0 Agent.init).goal_b = some k ∧
    (∀ j, j < 3 →
      ((reset_world k ap lp w).landmarks.getD j Landmark.init).color = primary j) := by
  obtain ⟨dc, dp, dcol, co, ags, lms⟩ := w
  simp only at ha hl
  obtain ⟨a0, a1, rfl⟩ := List.length_eq_two.mp ha
  obtain ⟨l0, l1, l2, rfl⟩ := List.length_eq_three.mp hl
  rw [reset_world_eval k hk]
  refine ⟨rfl, ?_⟩
  intro j hj
  interval_cases j <;> rfl

/-- C1, witness: `C1_theorem` instantiated at `k = 0`, zero draws, and the
world `make_world` builds. -/
theorem C1_witness :
    (0 : Nat) < 3 ∧ preResetWorld.agents.length = 2 ∧ preResetWorld.landmarks.length = 3 ∧
    ((reset_world 0 zdraw zdraw preResetWorld).agents.getD 0 Agent.init).goal_b = some 0 ∧
    ((reset_world 0 zdraw zdraw preResetWorld).landmarks.getD 2 Landmark.init).color =
      primary 2 :=
  ⟨by norm_num, rfl, rfl,
   (C1_theorem 0 zdraw zdraw preResetWorld (by norm_num) rfl rfl).1,
   (C1_theorem 0 zdraw zdraw preResetWorld (by norm_num) rfl rfl).2 2 (by norm_num)⟩

/-- C2: whenever agent 0's `goal_a` and `goal_b` are set (to agent `i` and
landmark `j` of the world), `reward` returns the negative of the squared
Euclidean distance between the referenced agent's position and the referenced
landmark's position, for any querying agent. -/
theorem C2_theorem (agent : Nat) (w : World) (a0 ga gb i j)
    (h0 : w.agents[0]? = some a0)
    (hga : a0.goal_a = some i) (hgb : a0.goal_b = some j)
    (hi : w.agents[i]? = some ga) (hj : w.landmarks[j]? = some gb) :
    reward agent w = Except.ok (-(sumSq (vsub ga.state.p_pos gb.state.p_pos))) := by
  simp only [reward, h0, hga, hgb, hi, hj]

/-- C2, witness: with the listener at `(0, 0)` and the goal landmark at
`(3, 4)`, the reward is `-25`. -/
theorem C2_witness : reward 0 exampleWorld = Except.ok (-25) := by
  rw [C2_theorem 0 exampleWorld _ _ _ 1 0 rfl rfl rfl rfl rfl]
  simp only [sumSq, vsub, List.zipWith, List.map, List.sum]
  norm_num

/-- C3: `reward` returns the same value no matter which agent is passed as
its first argument — the result does not depend on the agent parameter. -/
theorem C3_theorem (i1 i2 : Nat) (w : World) : reward i1 w = reward i2 w := rfl

/-- C4: the speaker's observation carries `goal_b`'s stored color as its
goal-color block (the zero 3-vector when `goal_b` is unset) with trailing
scalar 1, while the listener's observation always carries the zero 3-vector
with trailing scalar 0, whatever the world holds. -/
theorem C4_theorem (w : World) (a0 a1 : Agent)
    (h0 : w.agents[0]? = some a0) (h1 : w.agents[1]? = some a1)
    (hdc : w.dim_color = 3) :
    (∀ j gb, a0.goal_b = some j → w.landmarks[j]? = some gb →
        observation 0 w = Except.ok
          (a0.state.p_vel ++
           (w.landmarks.map fun e => vsub e.state.p_pos a0.state.p_pos).flatten ++
           gb.color ++ [1])) ∧
    (a0.goal_b = none →
        observation 0 w = Except.ok
          (a0.state.p_vel ++
           (w.landmarks.map fun e => vsub e.state.p_pos a0.state.p_pos).flatten ++
           zeros 3 ++ [1])) ∧
    observation 1 w = Except.ok
      (a1.state.p_vel ++
       (w.landmarks.map fun e => vsub e.state.p_pos a1.state.p_pos).flatten ++
       zeros 3 ++ [0]) := by
  refine ⟨?_, ?_, ?_⟩
  · intro j gb hb hj
    simp [observation, h0, hb, hj]
    rfl
  · intro hb
    simp [observation, h0, hb, hdc]
    rfl
  · simp [observation, h1]
    rfl

/-- C4, witness: `C4_theorem` instantiated at `exampleWorld`, giving both the
speaker's and the listener's observation there. -/
theorem C4_witness :
    exampleWorld.dim_color = 3 ∧
    observation 0 exampleWorld = Except.ok
      ((exampleWorld.agents.getD 0 Agent.init).state.p_vel ++
       (exampleWorld.landmarks.map fun e =>
          vsub e.state.p_pos (exampleWorld.agents.getD 0 Agent.init).state.p_pos).flatten ++
       (exampleWorld.landmarks.getD 0 Landmark.init).color ++ [1]) ∧
    observation 1 exampleWorld = Except.ok
      ((exampleWorld.agents.getD 1 Agent.init).state.p_vel ++
       (exampleWorld.landmarks.map fun e =>
          vsub e.state.p_pos (exampleWorld.agents.getD 1 Agent.init).state.p_pos).flatten ++
       zeros 3 ++ [0]) :=
  ⟨rfl,
   (C4_theorem exampleWorld _ _ rfl rfl rfl).1 0 _ rfl rfl,
   (C4_theorem exampleWorld _ _ rfl rfl rfl).2.2⟩

/-- C5: `benchmark_data` always fails with a `NameError` on the unbound name
`reward` and never returns a value. -/
theorem C5_theorem (agent : Nat) (w : World) :
    benchmark_data agent w = Except.error (PyError.nameError "reward") ∧
    ∀ v, benchmark_data agent w ≠ Except.ok v := by
  exact ⟨rfl, fun v h => by simp [benchmark_data] at h⟩

/-- C6: in a world with at least the two expected agents, `observation`
returns a vector exactly when it is asked about `agents[0]` or `agents[1]`,
and raises an error exactly when asked about any other agent. -/
theorem C6_theorem (i : Nat) (w : World) (h2 : 2 ≤ w.agents.length) :
    ((∃ v, observation i w = Except.ok v) ↔ (i = 0 ∨ i = 1)) ∧
    ((∃ e, observation i w = Except.error e) ↔ ¬(i = 0 ∨ i = 1)) := by
  have h0 : ∃ a, w.agents[0]? = some a := by
    cases h : w.agents[0]? with
    | none => rw [List.getElem?_eq_none_iff] at h; omega
    | some a => exact ⟨a, rfl⟩
  have h1 : ∃ a, w.agents[1]? = some a := by
    cases h : w.agents[1]? with
    | none => rw [List.getElem?_eq_none_iff] at h; omega
    | some a => exact ⟨a, rfl⟩
  obtain ⟨a0, h0⟩ := h0
  obtain ⟨a1, h1⟩ := h1
  have hok : (∃ v, observation i w = Except.ok v) ↔ (i = 0 ∨ i = 1) := by
    constructor
    · rintro ⟨v, hv⟩
      by_contra hc
      push_neg at hc
      obtain ⟨hi0, hi1⟩ := hc
      cases hg : w.agents[i]? with
      | none => simp [observation, hg] at hv
      | some a => simp [observation, hg, hi0, hi1] at hv
    · rintro (rfl | rfl)
      · simp only [observation, h0]
        exact ⟨_, rfl⟩
      · simp [observation, h1]
  refine ⟨hok, ?_⟩
  constructor
  · rintro ⟨e, he⟩ hi
    obtain ⟨v, hv⟩ := hok.mpr hi
    rw [he] at hv
    exact Except.noConfusion hv
  · intro hi
    cases hobs : observation i w with
    | ok v => exact absurd (hok.mp ⟨v, hobs⟩) hi
    | error e => exact ⟨e, rfl⟩

/-- C6, witness: `C6_theorem` instantiated at `exampleWorld`, for the
recognized agent 0 and the unrecognized index 5. -/
theorem C6_witness :
    2 ≤ exampleWorld.agents.length ∧
    ((∃ v, observation 0 exampleWorld = Except.ok v) ↔ ((0 : Nat) = 0 ∨ (0 : Nat) = 1)) ∧
    ((∃ e, observation 5 exampleWorld = Except.error e) ↔
      ¬((5 : Nat) = 0 ∨ (5 : Nat) = 1)) :=
  ⟨by decide,
   (C6_theorem 0 exampleWorld (by decide)).1,
   (C6_theorem 5 exampleWorld (by decide)).2⟩

/-- C7: in any world produced by `make_world`, immediately after any
`reset_world` call agent 0's `goal_a` is agent 1 and its `goal_b` is one of
the world's three landmarks (never unset), while agent 1's `goal_a` and
`goal_b` are unset. -/
theorem C7_theorem (k0 k1 : Nat) (ap0 lp0 ap1 lp1 : Nat → Nat → ℚ)
    (hk0 : k0 < 3) (hk1 : k1 < 3) :
    ((reset_world k1 ap1 lp1 (make_world k0 ap0 lp0)).agents.getD 0 Agent.init).goal_a
        = some 1 ∧
    (∃ j, j < 3 ∧
      ((reset_world k1 ap1 lp1 (make_world k0 ap0 lp0)).agents.getD 0 Agent.init).goal_b
        = some j) ∧
    ((reset_world k1 ap1 lp1 (make_world k0 ap0 lp0)).agents.getD 1 Agent.init).goal_a
        = none ∧
    ((reset_world k1 ap1 lp1 (make_world k0 ap0 lp0)).agents.getD 1 Agent.init).goal_b
        = none := by
  rw [make_world_eq]
  unfold preResetWorld
  rw [reset_world_eval k0 hk0, reset_world_eval k1 hk1]
  exact ⟨rfl, ⟨k1, hk1, rfl⟩, rfl, rfl⟩

/-- C7, witness: `C7_theorem` instantiated at goal draws 1 (inside
`make_world`) and 2 (the later reset), with zero position draws. -/
theorem C7_witness :
    (1 : Nat) < 3 ∧ (2 : Nat) < 3 ∧
    ((reset_world 2 zdraw zdraw (make_world 1 zdraw zdraw)).agents.getD 0 Agent.init).goal_a
        = some 1 ∧
    ((reset_world 2 zdraw zdraw (make_world 1 zdraw zdraw)).agents.getD 1 Agent.init).goal_a
        = none ∧
    ((reset_world 2 zdraw zdraw (make_world 1 zdraw zdraw)).agents.getD 1 Agent.init).goal_b
        = none :=
  ⟨by norm_num, by norm_num,
   (C7_theorem 1 2 zdraw zdraw zdraw zdraw (by norm_num) (by norm_num)).1,
   (C7_theorem 1 2 zdraw zdraw zdraw zdraw (by norm_num) (by norm_num)).2.2.1,
   (C7_theorem 1 2 zdraw zdraw zdraw zdraw (by norm_num) (by norm_num)).2.2.2⟩

/-- C8: for both agents of a world produced by `make_world`, the observation
is a vector of length 12, composed of 2 velocity components, three relative
landmark positions of 2 components each, a 3-component color block, and one
trailing scalar. -/
theorem C8_theorem (k : Nat) (ap lp : Nat → Nat → ℚ) (i : Nat)
    (hk : k < 3) (hi : i = 0 ∨ i = 1) :
    ∃ vel pos gc t,
      observation i (make_world k ap lp) = Except.ok (vel ++ pos ++ gc ++ [t]) ∧
      vel.length = 2 ∧ pos.length = 3 * 2 ∧ gc.length = 3 ∧
      (vel ++ pos ++ gc ++ [t]).length = 12 := by
  rw [make_world_eq]
  unfold preResetWorld
  rw [reset_world_eval k hk]
  interval_cases k <;> rcases hi with rfl | rfl <;>
    exact ⟨_, _, _, _, rfl, rfl, rfl, rfl, rfl⟩

/-- C8, witness: `C8_theorem` instantiated for the listener in the world
`make_world` builds with goal draw 0 and zero position draws. -/
theorem C8_witness :
    (0 : Nat) < 3 ∧ ((1 : Nat) = 0 ∨ (1 : Nat) = 1) ∧
    (∃ vel pos gc t,
      observation 1 (make_world 0 zdraw zdraw) = Except.ok (vel ++ pos ++ gc ++ [t]) ∧
      vel.length = 2 ∧ pos.length = 3 * 2 ∧ gc.length = 3 ∧
      (vel ++ pos ++ gc ++ [t]).length = 12) :=
  ⟨by norm_num, Or.inr rfl, C8_theorem 0 zdraw zdraw 1 (by norm_num) (Or.inr rfl)⟩

/-- C9: after every `reset_world` on a world of this scenario's shape, the
brightening is applied through `goal_a`: agent 0's `goal_a` is agent 1, and
agent 1's color equals the chosen goal landmark's color plus
`(0.45, 0.45, 0.45)` componentwise, overwriting the neutral gray
`(0.25, 0.25, 0.25)` that the same reset assigned (agent 0 keeps that gray),
while all three landmarks keep their fixed primary colors. -/
theorem C9_theorem (k : Nat) (ap lp : Nat → Nat → ℚ) (w : World)
    (hk : k < 3) (ha : w.agents.length = 2) (hl : w.landmarks.length = 3) :
    ((reset_world k ap lp w).agents.getD 0 Agent.init).goal_a = some 1 ∧
    ((reset_world k ap lp w).agents.getD 0 Agent.init).goal_b = some k ∧
    ((reset_world k ap lp w).agents.getD 1 Agent.init).color =
      vadd ((reset_world k ap lp w).landmarks.getD k Landmark.init).color
        [0.45, 0.45, 0.45] ∧
    ((reset_world k ap lp w).agents.getD 0 Agent.init).color = [0.25, 0.25, 0.25] ∧
    (∀ j, j < 3 →
      ((reset_world k ap lp w).landmarks.getD j Landmark.init).color = primary j) := by
  obtain ⟨dc, dp, dcol, co, ags, lms⟩ := w
  simp only at ha hl
  obtain ⟨a0, a1, rfl⟩ := List.length_eq_two.mp ha
  obtain ⟨l0, l1, l2, rfl⟩ := List.length_eq_three.mp hl
  rw [reset_world_eval k hk]
  refine ⟨rfl, rfl, ?_, rfl, ?_⟩
  · interval_cases k <;> rfl
  · intro j hj
    interval_cases j <;> rfl

/-- C9, witness: `C9_theorem` instantiated at goal draw 1 on the world
`make_world` builds before resetting. -/
theorem C9_witness :
    (1 : Nat) < 3 ∧ preResetWorld.agents.length = 2 ∧ preResetWorld.landmarks.length = 3 ∧
    ((reset_world 1 zdraw zdraw preResetWorld).agents.getD 1 Agent.init).color =
      vadd ((reset_world 1 zdraw zdraw preResetWorld).landmarks.getD 1 Landmark.init).color
        [0.45, 0.45, 0.45] ∧
    ((reset_world 1 zdraw zdraw preResetWorld).agents.getD 0 Agent.init).color =
      [0.25, 0.25, 0.25] :=
  ⟨by norm_num, rfl, rfl,
   (C9_theorem 1 zdraw zdraw preResetWorld (by norm_num) rfl rfl).2.2.1,
   (C9_theorem 1 zdraw zdraw preResetWorld (by norm_num) rfl rfl).2.2.2.1⟩

/-- C10: the listener's observation depends only on agent 1's velocity and
position and on the landmark positions — two worlds agreeing on those, however
much they differ in goal choice or in any agent or landmark colors, yield the
same `observation` for agent 1. -/
theorem C10_theorem (w w2 : World) (a a2 : Agent)
    (h1 : w.agents[1]? = some a) (h2 : w2.agents[1]? = some a2)
    (hv : a.state.p_vel = a2.state.p_vel)
    (hp : a.state.p_pos = a2.state.p_pos)
    (hl : w.landmarks.map (fun l => l.state.p_pos) =
          w2.landmarks.map (fun l => l.state.p_pos)) :
    observation 1 w = observation 1 w2 := by
  have key : ∀ (ls ls2 : List Landmark) (p : List ℚ),
      ls.map (fun l => l.state.p_pos) = ls2.map (fun l => l.state.p_pos) →
      ls.map (fun e => vsub e.state.p_pos p) = ls2.map (fun e => vsub e.state.p_pos p) := by
    intro ls ls2 p h
    have hmap := congrArg (List.map fun q => vsub q p) h
    simpa [List.map_map, Function.comp] using hmap
  simp only [observation, h1, h2]
  rw [hv, hp, key w.landmarks w2.landmarks a2.state.p_pos hl]
  simp

/-- C10, witness: `C10_theorem` applied to `worldA` and `worldB`, which agree
on the listener's state and the landmark positions but differ in the goal
landmark and in every color. -/
theorem C10_witness : observation 1 worldA = observation 1 worldB :=
  C10_theorem worldA worldB _ _ rfl rfl rfl rfl rfl

end SpeakerListenerShared
